import Mathlib

/-
Verification of the login / macaroon-credential core of the web application
(webapp/login/views.py and webapp/app.py), shallowly embedded in Lean 4.

Network calls are modelled by passing the resulting HTTP response (or the
outcome of the missing helper) as an explicit argument; Python exceptions
become an Except monad over the error kinds of webapp.api.exceptions, plus
the raw ValueError that response.json() can raise and the KeyError that a
missing session key raises.
-/

/-- JSON values, as decoded by response.json(). -/
inductive Json where
  | null
  | bool (b : Bool)
  | num (n : Int)
  | str (s : String)
  | arr (elements : List Json)
  | obj (fields : List (String × Json))

/-- Dictionary lookup, first match, as Python dict indexing on decoded JSON
objects. A non-object has no keys; Python membership tests on non-dict
bodies mostly yield False as well (an int body, where Python would raise,
is outside every theorem below). -/
def Json.getKey : Json → String → Option Json
  | Json.obj fields, k => fields.lookup k
  | _, _ => none

/-- Python truthiness of a decoded JSON value (the `not body` test). -/
def jsonTruthy : Json → Bool
  | Json.null => false
  | Json.bool b => b
  | Json.num n => n != 0
  | Json.str s => !s.isEmpty
  | Json.arr elements => !elements.isEmpty
  | Json.obj fields => !fields.isEmpty

/-- Whether the pattern occurs at some position of the list. -/
def listContainsSeq (pat : List Char) : List Char → Bool
  | [] => pat.isEmpty
  | c :: rest => pat.isPrefixOf (c :: rest) || listContainsSeq pat rest

/-- Substring test, as the Python `in` operator on strings. -/
def strContains (hay pat : String) : Bool :=
  listContainsSeq pat.data hay.data

/-- Exceptions raised by the embedded code: the ApiError hierarchy of
webapp.api.exceptions, the semantic errors of views.py, plus the raw
ValueError from response.json() and KeyError from session lookups. -/
inductive Raised where
  | apiResponseDecodeError (message : String)
  | agreementNotSigned
  | missingUsername
  | apiResponseErrorList (message : String) (status : Nat) (errors : Json)
  | apiResponseError (message : String) (status : Nat)
  | macaroonRefreshRequired
  | valueError (message : String)
  | keyError (key : String)

/-- An HTTP response from the backend, with the outcome of response.json()
made explicit: Except.error is the ValueError a malformed body raises. -/
structure HttpResponse where
  status : Nat
  headers : List (String × String)
  bodyJson : Except String Json

/-- The requests library property response.ok: true when the status code is
below 400. -/
def HttpResponse.ok (r : HttpResponse) : Bool :=
  r.status < 400

/-- Modelled from the spec: webapp.authentication is not among the source
files. Per the spec, expiry is signalled by a dedicated well-known response
header set by the backend; we model the detector as a scan for that header. -/
def is_macaroon_expired (headers : List (String × String)) : Bool :=
  headers.any (fun p => p.1 == "WWW-Authenticate" && p.2 == "Macaroon needs_refresh=1")

/-- Modelled from the spec: webapp.authentication is not among the source
files. The spec says the discharge macaroon is bound to the root and the
pair serialized into one Authorization header value; the binding algorithm
is opaque here, so the serialization is modelled as a tagged concatenation. -/
def bind_and_serialize (root discharge : String) : String :=
  "Macaroon root=" ++ root ++ ", discharge=" ++ discharge

/-- The session openid record. The is_canonical field is Option because the
degraded (fallback) record omits that key entirely. Values are Json because
the Python session stores whatever the account payload held. -/
structure OpenidRecord where
  identity_url : Json
  nickname : Json
  fullname : Json
  image : Json
  email : Json
  is_canonical : Option Bool

/-- The per-user session record (the flask session dict), with absence of a
key modelled as none. -/
structure Session where
  macaroon_root : Option String
  macaroon_discharge : Option String
  openid : Option OpenidRecord
  user_shared_snaps : Option (List String)

/-- The fresh (or fully cleared) session. -/
def emptySession : Session :=
  { macaroon_root := none, macaroon_discharge := none,
    openid := none, user_shared_snaps := none }

/-- Modelled from the spec: webapp.authentication is not among the source
files. The spec says the session is authenticated exactly when openid is
present and non-empty; a present openid record is never empty here. -/
def is_authenticated (session : Session) : Bool :=
  session.openid.isSome

/-- Modelled from the spec: webapp.authentication is not among the source
files. The spec says logout clears all session fields. -/
def empty_session (_session : Session) : Session :=
  emptySession

/-- views.get_authorization_header: reads both macaroons from the session
(KeyError when absent, as in Python) and builds the Authorization header. -/
def get_authorization_header (session : Session) : Except Raised (List (String × String)) :=
  match session.macaroon_root, session.macaroon_discharge with
  | some root, some discharge =>
      Except.ok [("Authorization", bind_and_serialize root discharge)]
  | none, _ => Except.error (Raised.keyError "macaroon_root")
  | some _, none => Except.error (Raised.keyError "macaroon_discharge")

/-- The for-loop of process_response over body["error_list"]: the first
element whose code is "user-not-ready" and whose message contains one of
the two known substrings selects the typed error. An element whose code is
the known one but whose message matches neither substring is skipped, as in
the Python elif chain. (A malformed element lacking the keys, where Python
would raise KeyError, is skipped here; every theorem below constrains the
list to well-formed elements.) -/
def scanUserNotReady : List Json → Option Raised
  | [] => none
  | e :: rest =>
    match e.getKey "code", e.getKey "message" with
    | some (Json.str c), some (Json.str m) =>
      if c = "user-not-ready" then
        if strContains m "has not signed agreement" then some Raised.agreementNotSigned
        else if strContains m "missing store username" then some Raised.missingUsername
        else scanUserNotReady rest
      else scanUserNotReady rest
    | _, _ => scanUserNotReady rest

/-- views.process_response: decode the body (decode failure becomes
ApiResponseDecodeError); on a non-ok status classify error_list into the
typed errors or an aggregate ApiResponseErrorList, and map an empty body to
ApiResponseError; otherwise return the body. -/
def process_response (response : HttpResponse) : Except Raised Json :=
  match response.bodyJson with
  | Except.error decode_error =>
      Except.error (Raised.apiResponseDecodeError ("JSON decoding failed: " ++ decode_error))
  | Except.ok body =>
    if response.ok then Except.ok body
    else
      match body.getKey "error_list" with
      | some (Json.arr errors) =>
        match scanUserNotReady errors with
        | some e => Except.error e
        | none =>
            Except.error
              (Raised.apiResponseErrorList "The api returned a list of errors"
                response.status (Json.arr errors))
      | some other =>
          Except.error
            (Raised.apiResponseErrorList "The api returned a list of errors"
              response.status other)
      | none =>
        if jsonTruthy body then Except.ok body
        else Except.error (Raised.apiResponseError "Unknown error from api" response.status)

/-- views.get_account: build the header, check expiry, then process the
response. The network call itself is modelled by passing its response. -/
def get_account (session : Session) (response : HttpResponse) : Except Raised Json :=
  match get_authorization_header session with
  | Except.error e => Except.error e
  | Except.ok _headers =>
    if is_macaroon_expired response.headers then Except.error Raised.macaroonRefreshRequired
    else process_response response

/-- views.get_agreement: unlike every other operation, the body is returned
by agreement_response.json() directly, without process_response; a decode
failure therefore escapes as a raw ValueError and an error status is not
classified. -/
def get_agreement (session : Session) (agreement_response : HttpResponse) : Except Raised Json :=
  match get_authorization_header session with
  | Except.error e => Except.error e
  | Except.ok _headers =>
    if is_macaroon_expired agreement_response.headers then
      Except.error Raised.macaroonRefreshRequired
    else
      match agreement_response.bodyJson with
      | Except.error msg => Except.error (Raised.valueError msg)
      | Except.ok body => Except.ok body

/-- views.post_agreement. -/
def post_agreement (session : Session) (agreed : Bool) (agreement_response : HttpResponse) :
    Except Raised Json :=
  match get_authorization_header session with
  | Except.error e => Except.error e
  | Except.ok _headers =>
    if is_macaroon_expired agreement_response.headers then
      Except.error Raised.macaroonRefreshRequired
    else process_response agreement_response

/-- views.post_username: a 204 status returns the empty dict before any body
processing happens. -/
def post_username (session : Session) (username : String) (username_response : HttpResponse) :
    Except Raised Json :=
  match get_authorization_header session with
  | Except.error e => Except.error e
  | Except.ok _headers =>
    if is_macaroon_expired username_response.headers then
      Except.error Raised.macaroonRefreshRequired
    else if username_response.status = 204 then Except.ok (Json.obj [])
    else process_response username_response

/-- views.get_publisher_metrics. -/
def get_publisher_metrics (session : Session) (json : Json) (metrics_response : HttpResponse) :
    Except Raised Json :=
  match get_authorization_header session with
  | Except.error e => Except.error e
  | Except.ok _headers =>
    if is_macaroon_expired metrics_response.headers then
      Except.error Raised.macaroonRefreshRequired
    else process_response metrics_response

/-- views.post_register_name; the optional arguments only shape the request
payload, which is part of the network call modelled by the response. -/
def post_register_name (session : Session) (snap_name : String)
    (registrant_comment : Option String) (is_private : Bool) (store : Option String)
    (response : HttpResponse) : Except Raised Json :=
  match get_authorization_header session with
  | Except.error e => Except.error e
  | Except.ok _headers =>
    if is_macaroon_expired response.headers then Except.error Raised.macaroonRefreshRequired
    else process_response response

/-- views.post_register_name_dispute. -/
def post_register_name_dispute (session : Session) (snap_name claim_comment : String)
    (response : HttpResponse) : Except Raised Json :=
  match get_authorization_header session with
  | Except.error e => Except.error e
  | Except.ok _headers =>
    if is_macaroon_expired response.headers then Except.error Raised.macaroonRefreshRequired
    else process_response response

/-- views.get_snap_info. -/
def get_snap_info (snap_name : String) (session : Session) (response : HttpResponse) :
    Except Raised Json :=
  match get_authorization_header session with
  | Except.error e => Except.error e
  | Except.ok _headers =>
    if is_macaroon_expired response.headers then Except.error Raised.macaroonRefreshRequired
    else process_response response

/-- views.get_snap_id: get_snap_info followed by indexing "snap_id". -/
def get_snap_id (snap_name : String) (session : Session) (response : HttpResponse) :
    Except Raised Json :=
  match get_snap_info snap_name session response with
  | Except.error e => Except.error e
  | Except.ok snap_info =>
    match snap_info.getKey "snap_id" with
    | some v => Except.ok v
    | none => Except.error (Raised.keyError "snap_id")

/-- views.snap_metadata. -/
def snap_metadata (snap_id : String) (session : Session) (json : Option Json)
    (metadata_response : HttpResponse) : Except Raised Json :=
  match get_authorization_header session with
  | Except.error e => Except.error e
  | Except.ok _headers =>
    if is_macaroon_expired metadata_response.headers then
      Except.error Raised.macaroonRefreshRequired
    else process_response metadata_response

/-- views.snap_screenshots; data and files only shape the multipart request. -/
def snap_screenshots (snap_id : String) (session : Session) (data files : Option Json)
    (screenshot_response : HttpResponse) : Except Raised Json :=
  match get_authorization_header session with
  | Except.error e => Except.error e
  | Except.ok _headers =>
    if is_macaroon_expired screenshot_response.headers then
      Except.error Raised.macaroonRefreshRequired
    else process_response screenshot_response

/-- views.snap_revision_history. -/
def snap_revision_history (session : Session) (snap_id : String) (response : HttpResponse) :
    Except Raised Json :=
  match get_authorization_header session with
  | Except.error e => Except.error e
  | Except.ok _headers =>
    if is_macaroon_expired response.headers then Except.error Raised.macaroonRefreshRequired
    else process_response response

/-- views.snap_release_history. -/
def snap_release_history (session : Session) (snap_name : String) (page : Nat)
    (response : HttpResponse) : Except Raised Json :=
  match get_authorization_header session with
  | Except.error e => Except.error e
  | Except.ok _headers =>
    if is_macaroon_expired response.headers then Except.error Raised.macaroonRefreshRequired
    else process_response response

/-- views.post_snap_release. -/
def post_snap_release (session : Session) (snap_name : String) (json : Json)
    (response : HttpResponse) : Except Raised Json :=
  match get_authorization_header session with
  | Except.error e => Except.error e
  | Except.ok _headers =>
    if is_macaroon_expired response.headers then Except.error Raised.macaroonRefreshRequired
    else process_response response

/-- views.post_close_channel. -/
def post_close_channel (session : Session) (snap_id : String) (json : Json)
    (response : HttpResponse) : Except Raised Json :=
  match get_authorization_header session with
  | Except.error e => Except.error e
  | Except.ok _headers =>
    if is_macaroon_expired response.headers then Except.error Raised.macaroonRefreshRequired
    else process_response response

/-- The LOGIN_URL module constant (the getenv default). -/
def LOGIN_URL : String := "https://login.ubuntu.com"

/-- The LP_CANONICAL_TEAM module constant. -/
def LP_CANONICAL_TEAM : String := "canonical"

/-- Outcome of authentication.request_macaroon(), whose implementation is
not among the source files: either a root macaroon, or one of the three
exception kinds the login handler distinguishes. -/
inductive MacaroonResult where
  | ok (root : String)
  | responseError (message : String) (status : Nat)
  | circuitBreaker
  | apiError (message : String)

/-- The HTTP-level result a view handler produces: a redirect, a flask
abort with a status code (and optional description), or the hand-off to
open_id.try_login carrying the provider URL, the requested attributes and
the two extensions (macaroon caveat id and team-membership query). -/
inductive HttpResult where
  | redirect (url : String)
  | abort (status : Nat) (message : String)
  | tryLogin (provider_url : String) (ask_for ask_for_optional : List String)
      (caveat_id : String) (teams_query : List String)

/-- views.login_handler: short-circuit when already authenticated, otherwise
request a macaroon (outcome passed in), translate its failures, or store the
root in the session and redirect to the provider. get_caveat_id, whose
implementation is not among the source files, is passed as a function. The
result pairs the final session with the HTTP-level result. -/
def login_handler (get_caveat_id : String → String) (session : Session)
    (next_url : String) (macaroon_result : MacaroonResult) : Session × HttpResult :=
  if is_authenticated session then (session, HttpResult.redirect next_url)
  else
    match macaroon_result with
    | MacaroonResult.responseError message status =>
      if status = 401 then (session, HttpResult.redirect "/logout")
      else (session, HttpResult.abort 502 message)
    | MacaroonResult.circuitBreaker => (session, HttpResult.abort 503 "")
    | MacaroonResult.apiError message => (session, HttpResult.abort 502 message)
    | MacaroonResult.ok root =>
      ({ session with macaroon_root := some root },
       HttpResult.tryLogin LOGIN_URL ["email", "nickname", "image"] ["fullname"]
         (get_caveat_id root) [LP_CANONICAL_TEAM])

/-- The provider callback response object: identity attributes (Json, since
Python may deliver None for any of them), the macaroon extension discharge
and the team extension membership set, both guaranteed present by the
provider-protocol interface of the spec. -/
structure OpenIdResp where
  identity_url : Json
  nickname : Json
  fullname : Json
  image : Json
  email : Json
  discharge : String
  is_member : List String

/-- Outcome of the dashboard account fetch inside after_login: the account
payload, or the circuit-breaker exception, or any other exception. -/
inductive FetchResult where
  | ok (account : Json)
  | circuitBreaker
  | otherError

/-- The degraded openid record built in the broad except branch of
after_login: provider-supplied fields only, and no is_canonical key. -/
def fallback_openid (resp : OpenIdResp) : OpenidRecord :=
  { identity_url := resp.identity_url, nickname := resp.nickname,
    fullname := resp.fullname, image := resp.image, email := resp.email,
    is_canonical := none }

/-- views.after_login: bind the discharge into the session first; retry via
the provider when the nickname is missing; then either populate the session
from the account payload (plus the team-membership bit and the shared-snap
set, whose computation by the missing webapp.logic helper is passed in as
shared_result, none meaning it raised), abort on circuit breaker, or fall
back to provider-only fields on any other exception. A KeyError from a
malformed account payload is caught by the same broad except, so the
fallback also covers missing account keys; the model gives the net final
session (in Python an openid record written before a later exception is
overwritten by the fallback record). -/
def after_login (session : Session) (resp : OpenIdResp) (fetch : FetchResult)
    (shared_result : Option (List String)) (next_url : String) : Session × HttpResult :=
  let s1 := { session with macaroon_discharge := some resp.discharge }
  if jsonTruthy resp.nickname = false then (s1, HttpResult.redirect LOGIN_URL)
  else
    match fetch with
    | FetchResult.circuitBreaker => (s1, HttpResult.abort 503 "")
    | FetchResult.otherError =>
      ({ s1 with openid := some (fallback_openid resp) }, HttpResult.redirect next_url)
    | FetchResult.ok account =>
      match account.getKey "username", account.getKey "displayname",
          account.getKey "email", shared_result with
      | some u, some d, some e, some shared =>
        ({ s1 with
            openid := some
              { identity_url := resp.identity_url, nickname := u, fullname := d,
                image := resp.image, email := e,
                is_canonical := some (resp.is_member.contains LP_CANONICAL_TEAM) },
            user_shared_snaps := some shared },
         HttpResult.redirect next_url)
      | _, _, _, _ =>
        ({ s1 with openid := some (fallback_openid resp) }, HttpResult.redirect next_url)

/-- Uppercase hexadecimal digit for a value below 16. -/
def hexDigit (n : Nat) : Char :=
  if n < 10 then Char.ofNat (48 + n) else Char.ofNat (55 + n)

/-- Percent-encoding of one UTF-8 byte as urllib.parse.quote with safe=""
does it: the always-safe characters (letters, digits, underscore, dot,
hyphen, tilde) stay, everything else becomes an uppercase percent escape. -/
def quoteByte (b : Nat) : String :=
  if (Nat.ble 65 b && Nat.ble b 90) || (Nat.ble 97 b && Nat.ble b 122) ||
      (Nat.ble 48 b && Nat.ble b 57) || b == 95 || b == 46 || b == 45 || b == 126 then
    String.singleton (Char.ofNat b)
  else
    "%" ++ String.singleton (hexDigit (b / 16)) ++ String.singleton (hexDigit (b % 16))

/-- UTF-8 byte sequence of a code point, written out arithmetically so the
kernel can evaluate it. -/
def utf8Bytes (n : Nat) : List Nat :=
  if n < 128 then [n]
  else if n < 2048 then [192 + n / 64, 128 + n % 64]
  else if n < 65536 then [224 + n / 4096, 128 + (n / 64) % 64, 128 + n % 64]
  else [240 + n / 262144, 128 + (n / 4096) % 64, 128 + (n / 64) % 64, 128 + n % 64]

/-- urllib.parse.quote(s, safe=""): percent-encode every UTF-8 byte that is
not always safe. -/
def quote (s : String) : String :=
  String.join (s.data.map (fun c => String.join ((utf8Bytes c.toNat).map quoteByte)))

/-- views.logout: read no_redirect (default "false"), clear the session only
when authenticated, then redirect to the site root or to the provider logout
URL with the URL-escaped request root. -/
def logout (session : Session) (no_redirect : Option String) (url_root : String) :
    Session × HttpResult :=
  let nr := no_redirect.getD "false"
  let s1 := if is_authenticated session then empty_session session else session
  if nr = "true" then (s1, HttpResult.redirect "/")
  else
    (s1, HttpResult.redirect
      (LOGIN_URL ++ "/+logout?return_to=" ++ quote url_root ++ "&return_now=True"))

/-- One transition of the login state machine: the login entry point, the
provider callback, or the logout endpoint, each carrying the external inputs
of the corresponding handler. -/
inductive SessionTrans where
  | entry (next_url : String) (macaroon_result : MacaroonResult)
  | callback (resp : OpenIdResp) (fetch : FetchResult)
      (shared_result : Option (List String)) (next_url : String)
  | logoutReq (no_redirect : Option String) (url_root : String)

/-- The session component of one transition of the login state machine. -/
def applyTrans (get_caveat_id : String → String) (session : Session) :
    SessionTrans → Session
  | SessionTrans.entry next_url macaroon_result =>
    (login_handler get_caveat_id session next_url macaroon_result).1
  | SessionTrans.callback resp fetch shared_result next_url =>
    (after_login session resp fetch shared_result next_url).1
  | SessionTrans.logoutReq no_redirect url_root =>
    (logout session no_redirect url_root).1

/-- Whether a transition is the provider callback. -/
def SessionTrans.isCallback : SessionTrans → Bool
  | SessionTrans.callback _ _ _ _ => true
  | _ => false

/-- A session holding both macaroons but not yet authenticated. -/
def sessionCreds : Session :=
  { macaroon_root := some "ROOT", macaroon_discharge := some "DISCH",
    openid := none, user_shared_snaps := none }

/-- A populated openid record. -/
def openidFixture : OpenidRecord :=
  { identity_url := Json.str "https://login.ubuntu.com/+id/x",
    nickname := Json.str "nick", fullname := Json.null, image := Json.null,
    email := Json.str "nick@example.com", is_canonical := some false }

/-- An authenticated session. -/
def sessionAuth : Session :=
  { macaroon_root := some "ROOT", macaroon_discharge := some "DISCH",
    openid := some openidFixture, user_shared_snaps := none }

/-- A 200 response whose headers signal macaroon expiry and whose body is
not valid JSON. -/
def respExpired : HttpResponse :=
  { status := 200, headers := [("WWW-Authenticate", "Macaroon needs_refresh=1")],
    bodyJson := Except.error "Expecting value" }

/-- A 204 no-content response; its body is not valid JSON. -/
def resp204 : HttpResponse :=
  { status := 204, headers := [], bodyJson := Except.error "Expecting value" }

/-- A provider callback response with a nickname. -/
def oidResp : OpenIdResp :=
  { identity_url := Json.str "https://login.ubuntu.com/+id/x", nickname := Json.str "nick",
    fullname := Json.null, image := Json.null, email := Json.null,
    discharge := "DMAC", is_member := [] }

/-- A provider callback response without a nickname. -/
def oidRespNoNick : OpenIdResp :=
  { identity_url := Json.str "https://login.ubuntu.com/+id/x", nickname := Json.null,
    fullname := Json.null, image := Json.null, email := Json.null,
    discharge := "DMAC", is_member := [] }

/-- A provider-callback transition whose account fetch fails. -/
def transCallback : SessionTrans := SessionTrans.callback oidResp FetchResult.otherError none "/"

/-- C1: for every authenticated API client operation, a response whose
headers signal macaroon expiry makes the operation raise
MacaroonRefreshRequired, whatever the body holds (including a body that is
not valid JSON), so no decode error can arise. -/
theorem c1_expiry_short_circuits
    (s : Session) (r : HttpResponse) (agreed : Bool) (username : String)
    (metrics_json : Json) (snap_name : String) (registrant_comment : Option String)
    (is_private : Bool) (store : Option String) (claim_comment : String)
    (snap_id : String) (metadata_json : Option Json) (data files : Option Json)
    (page : Nat) (release_json close_json : Json)
    (hroot : s.macaroon_root.isSome = true)
    (hdis : s.macaroon_discharge.isSome = true)
    (hexp : is_macaroon_expired r.headers = true) :
    get_account s r = Except.error Raised.macaroonRefreshRequired ∧
    get_agreement s r = Except.error Raised.macaroonRefreshRequired ∧
    post_agreement s agreed r = Except.error Raised.macaroonRefreshRequired ∧
    post_username s username r = Except.error Raised.macaroonRefreshRequired ∧
    get_publisher_metrics s metrics_json r = Except.error Raised.macaroonRefreshRequired ∧
    post_register_name s snap_name registrant_comment is_private store r =
      Except.error Raised.macaroonRefreshRequired ∧
    post_register_name_dispute s snap_name claim_comment r =
      Except.error Raised.macaroonRefreshRequired ∧
    get_snap_info snap_name s r = Except.error Raised.macaroonRefreshRequired ∧
    get_snap_id snap_name s r = Except.error Raised.macaroonRefreshRequired ∧
    snap_metadata snap_id s metadata_json r = Except.error Raised.macaroonRefreshRequired ∧
    snap_screenshots snap_id s data files r = Except.error Raised.macaroonRefreshRequired ∧
    snap_revision_history s snap_id r = Except.error Raised.macaroonRefreshRequired ∧
    snap_release_history s snap_name page r = Except.error Raised.macaroonRefreshRequired ∧
    post_snap_release s snap_name release_json r = Except.error Raised.macaroonRefreshRequired ∧
    post_close_channel s snap_id close_json r = Except.error Raised.macaroonRefreshRequired := by
  obtain ⟨mroot, mdis, oid, shr⟩ := s
  cases mroot with
  | none => simp at hroot
  | some rt =>
    cases mdis with
    | none => simp at hdis
    | some dc =>
      refine ⟨?_, ?_, ?_, ?_, ?_, ?_, ?_, ?_, ?_, ?_, ?_, ?_, ?_, ?_, ?_⟩ <;>
        simp [get_account, get_agreement, post_agreement, post_username,
          get_publisher_metrics, post_register_name, post_register_name_dispute,
          get_snap_info, get_snap_id, snap_metadata, snap_screenshots,
          snap_revision_history, snap_release_history, post_snap_release,
          post_close_channel, get_authorization_header, hexp]

/-- C1 witness: a concrete session with both macaroons and a concrete 200
response marked expired whose body is malformed JSON. -/
theorem c1_expiry_witness :
    (sessionCreds.macaroon_root.isSome = true ∧
     sessionCreds.macaroon_discharge.isSome = true ∧
     is_macaroon_expired respExpired.headers = true) ∧
    get_account sessionCreds respExpired = Except.error Raised.macaroonRefreshRequired ∧
    get_agreement sessionCreds respExpired = Except.error Raised.macaroonRefreshRequired :=
  ⟨⟨rfl, rfl, rfl⟩,
   (c1_expiry_short_circuits sessionCreds respExpired true "user" Json.null "snap" none
      false none "comment" "id0" none none none 1 Json.null Json.null rfl rfl rfl).1,
   (c1_expiry_short_circuits sessionCreds respExpired true "user" Json.null "snap" none
      false none "comment" "id0" none none none 1 Json.null Json.null rfl rfl rfl).2.1⟩

/-- C2 counterexample: applying the provider-callback transition to the
empty session (no macaroon_root) sets macaroon_discharge while
macaroon_root stays unset, because after_login binds the discharge
unconditionally before any check; the invariant as claimed, quantified over
every sequence of transitions, therefore fails on the one-step sequence
consisting of a callback alone. -/
theorem c2_counterexample :
    (applyTrans (fun root => root) emptySession transCallback).macaroon_discharge = some "DMAC" ∧
    (applyTrans (fun root => root) emptySession transCallback).macaroon_root = none :=
  ⟨rfl, rfl⟩

/-- C2 amended: the invariant (macaroon_discharge set only when
macaroon_root is set) is preserved by every login entry, provider callback
and logout transition, provided each provider callback is applied to a
session whose macaroon_root is already set; the callback handler itself
binds the discharge unconditionally, so that proviso is exactly what the
code fails to enforce. -/
theorem c2_invariant_preserved (get_caveat_id : String → String) (s : Session)
    (t : SessionTrans)
    (hinv : s.macaroon_discharge.isSome = true → s.macaroon_root.isSome = true)
    (hcb : t.isCallback = true → s.macaroon_root.isSome = true) :
    (applyTrans get_caveat_id s t).macaroon_discharge.isSome = true →
      (applyTrans get_caveat_id s t).macaroon_root.isSome = true := by
  cases t with
  | entry next_url macaroon_result =>
    by_cases ha : is_authenticated s = true
    · simpa [applyTrans, login_handler, ha] using hinv
    · rw [Bool.not_eq_true] at ha
      cases macaroon_result with
      | ok root => simp [applyTrans, login_handler, ha]
      | responseError message status =>
        by_cases h4 : status = 401 <;> simpa [applyTrans, login_handler, ha, h4] using hinv
      | circuitBreaker => simpa [applyTrans, login_handler, ha] using hinv
      | apiError message => simpa [applyTrans, login_handler, ha] using hinv
  | callback resp fetch shared_result next_url =>
    intro _
    have hroot : s.macaroon_root.isSome = true := hcb rfl
    cases hn : jsonTruthy resp.nickname with
    | false => simpa [applyTrans, after_login, hn] using hroot
    | true =>
      cases fetch with
      | circuitBreaker => simpa [applyTrans, after_login, hn] using hroot
      | otherError => simpa [applyTrans, after_login, hn] using hroot
      | ok account =>
        cases hu : account.getKey "username" with
        | none => simpa [applyTrans, after_login, hn, hu] using hroot
        | some u =>
          cases hd : account.getKey "displayname" with
          | none => simpa [applyTrans, after_login, hn, hu, hd] using hroot
          | some d =>
            cases he : account.getKey "email" with
            | none => simpa [applyTrans, after_login, hn, hu, hd, he] using hroot
            | some e =>
              cases shared_result with
              | none => simpa [applyTrans, after_login, hn, hu, hd, he] using hroot
              | some shared => simpa [applyTrans, after_login, hn, hu, hd, he] using hroot
  | logoutReq no_redirect url_root =>
    by_cases ha : is_authenticated s = true
    · by_cases hnr : no_redirect.getD "false" = "true" <;>
        simp [applyTrans, logout, empty_session, emptySession, ha, hnr]
    · by_cases hnr : no_redirect.getD "false" = "true" <;>
        simpa [applyTrans, logout, empty_session, emptySession, ha, hnr] using hinv

/-- C2 witness for the amended invariant: a concrete step applying the
callback transition to a session that already holds a root macaroon. -/
theorem c2_invariant_witness :
    (sessionCreds.macaroon_discharge.isSome = true → sessionCreds.macaroon_root.isSome = true) ∧
    (transCallback.isCallback = true → sessionCreds.macaroon_root.isSome = true) ∧
    (applyTrans (fun root => root) sessionCreds transCallback).macaroon_root.isSome = true :=
  ⟨fun _ => rfl, fun _ => rfl,
   c2_invariant_preserved (fun root => root) sessionCreds transCallback
     (fun _ => rfl) (fun _ => rfl) rfl⟩

/-- C3: in the provider callback, when the account fetch fails with any
exception other than the circuit breaker, the session is still marked
authenticated using only the provider-supplied fields, with no is_canonical
key and no user_shared_snaps entry (given none was present before); the
circuit-breaker failure instead aborts with 503. -/
theorem c3_degraded_session (s : Session) (resp : OpenIdResp)
    (shared_result : Option (List String)) (next_url : String)
    (hnick : jsonTruthy resp.nickname = true) :
    after_login s resp FetchResult.otherError shared_result next_url =
      ({ s with macaroon_discharge := some resp.discharge,
                openid := some (fallback_openid resp) },
       HttpResult.redirect next_url) ∧
    (fallback_openid resp).is_canonical = none ∧
    (s.user_shared_snaps = none →
      (after_login s resp FetchResult.otherError shared_result next_url).1.user_shared_snaps =
        none) ∧
    (after_login s resp FetchResult.circuitBreaker shared_result next_url).2 =
      HttpResult.abort 503 "" := by
  refine ⟨?_, rfl, ?_, ?_⟩
  · simp [after_login, hnick]
  · intro hshared
    simp [after_login, hnick, hshared]
  · simp [after_login, hnick]

/-- C3 witness: a concrete callback response on the empty session whose
account fetch raised a generic exception. -/
theorem c3_degraded_witness :
    (jsonTruthy oidResp.nickname = true ∧ emptySession.user_shared_snaps = none) ∧
    after_login emptySession oidResp FetchResult.otherError none "/next" =
      ({ macaroon_root := none, macaroon_discharge := some "DMAC",
         openid := some (fallback_openid oidResp), user_shared_snaps := none },
       HttpResult.redirect "/next") ∧
    (after_login emptySession oidResp FetchResult.otherError none "/next").1.user_shared_snaps =
      none :=
  ⟨⟨rfl, rfl⟩,
   (c3_degraded_session emptySession oidResp none "/next" rfl).1,
   (c3_degraded_session emptySession oidResp none "/next" rfl).2.2.1 rfl⟩

/-- C4: when macaroon acquisition fails at the login entry point (the
session being unauthenticated), a 401 ApiResponseError redirects to the
logout route, any other ApiResponseError and the generic ApiError abort
with 502, and ApiCircuitBreaker aborts with 503. -/
theorem c4_macaroon_failure_mapping (get_caveat_id : String → String) (s : Session)
    (next_url message : String) (status : Nat)
    (hauth : is_authenticated s = false) :
    login_handler get_caveat_id s next_url (MacaroonResult.responseError message 401) =
      (s, HttpResult.redirect "/logout") ∧
    (status ≠ 401 →
      login_handler get_caveat_id s next_url (MacaroonResult.responseError message status) =
        (s, HttpResult.abort 502 message)) ∧
    login_handler get_caveat_id s next_url (MacaroonResult.apiError message) =
      (s, HttpResult.abort 502 message) ∧
    login_handler get_caveat_id s next_url MacaroonResult.circuitBreaker =
      (s, HttpResult.abort 503 "") := by
  refine ⟨?_, ?_, ?_, ?_⟩
  · simp [login_handler, hauth]
  · intro h4
    simp [login_handler, hauth, h4]
  · simp [login_handler, hauth]
  · simp [login_handler, hauth]

/-- C4 witness: the four failure kinds at a concrete unauthenticated
session. -/
theorem c4_macaroon_failure_witness :
    (is_authenticated sessionCreds = false ∧ (502 : Nat) ≠ 401) ∧
    login_handler (fun root => root) sessionCreds "/next"
        (MacaroonResult.responseError "401 Client Error" 401) =
      (sessionCreds, HttpResult.redirect "/logout") ∧
    login_handler (fun root => root) sessionCreds "/next"
        (MacaroonResult.responseError "502 Server Error" 502) =
      (sessionCreds, HttpResult.abort 502 "502 Server Error") ∧
    login_handler (fun root => root) sessionCreds "/next" MacaroonResult.circuitBreaker =
      (sessionCreds, HttpResult.abort 503 "") :=
  ⟨⟨rfl, by decide⟩,
   (c4_macaroon_failure_mapping (fun root => root) sessionCreds "/next" "401 Client Error"
      502 rfl).1,
   (c4_macaroon_failure_mapping (fun root => root) sessionCreds "/next" "502 Server Error"
      502 rfl).2.1 (by decide),
   (c4_macaroon_failure_mapping (fun root => root) sessionCreds "/next" "502 Server Error"
      502 rfl).2.2.2⟩

/-- C6: the login entry point on an already-authenticated session returns a
redirect to the stored next URL, leaves the session unchanged, and its
result does not depend on the macaroon acquisition outcome (so no new root
macaroon is requested or stored). -/
theorem c6_login_idempotent (get_caveat_id : String → String) (s : Session)
    (next_url : String) (macaroon_result : MacaroonResult)
    (hauth : is_authenticated s = true) :
    login_handler get_caveat_id s next_url macaroon_result =
      (s, HttpResult.redirect next_url) := by
  simp [login_handler, hauth]

/-- C6 witness: a concrete authenticated session, with a macaroon outcome
that would have stored a new root had it been consulted. -/
theorem c6_login_idempotent_witness :
    is_authenticated sessionAuth = true ∧
    login_handler (fun root => root) sessionAuth "/next" (MacaroonResult.ok "NEWROOT") =
      (sessionAuth, HttpResult.redirect "/next") :=
  ⟨rfl, c6_login_idempotent (fun root => root) sessionAuth "/next"
    (MacaroonResult.ok "NEWROOT") rfl⟩

/-- C7: a provider callback without a nickname redirects to the provider
login URL and does not populate the openid record, so a previously
unauthenticated session stays unauthenticated (only the discharge is
bound). -/
theorem c7_no_nickname_redirect (s : Session) (resp : OpenIdResp) (fetch : FetchResult)
    (shared_result : Option (List String)) (next_url : String)
    (hnick : jsonTruthy resp.nickname = false) :
    after_login s resp fetch shared_result next_url =
      ({ s with macaroon_discharge := some resp.discharge }, HttpResult.redirect LOGIN_URL) ∧
    (s.openid = none →
      is_authenticated (after_login s resp fetch shared_result next_url).1 = false) := by
  constructor
  · simp [after_login, hnick]
  · intro hopen
    simp [after_login, hnick, is_authenticated, hopen]

/-- C7 witness: a concrete nickname-free callback on a session holding only
the macaroons. -/
theorem c7_no_nickname_witness :
    (jsonTruthy oidRespNoNick.nickname = false ∧ sessionCreds.openid = none) ∧
    after_login sessionCreds oidRespNoNick FetchResult.otherError none "/next" =
      ({ macaroon_root := some "ROOT", macaroon_discharge := some "DMAC",
         openid := none, user_shared_snaps := none },
       HttpResult.redirect "https://login.ubuntu.com") ∧
    is_authenticated
      (after_login sessionCreds oidRespNoNick FetchResult.otherError none "/next").1 = false :=
  ⟨⟨rfl, rfl⟩,
   (c7_no_nickname_redirect sessionCreds oidRespNoNick FetchResult.otherError none "/next"
      rfl).1,
   (c7_no_nickname_redirect sessionCreds oidRespNoNick FetchResult.otherError none "/next"
      rfl).2 rfl⟩

/-- C8: logout redirects to the site root when no_redirect is "true" and
otherwise to the provider logout URL carrying the URL-escaped site root;
an authenticated session is cleared first, an unauthenticated one is left
unchanged. -/
theorem c8_logout_behavior (s : Session) (no_redirect : Option String) (url_root : String) :
    (no_redirect.getD "false" = "true" →
      (logout s no_redirect url_root).2 = HttpResult.redirect "/") ∧
    (no_redirect.getD "false" ≠ "true" →
      (logout s no_redirect url_root).2 =
        HttpResult.redirect
          (LOGIN_URL ++ "/+logout?return_to=" ++ quote url_root ++ "&return_now=True")) ∧
    (is_authenticated s = true → (logout s no_redirect url_root).1 = emptySession) ∧
    (is_authenticated s = false → (logout s no_redirect url_root).1 = s) := by
  refine ⟨?_, ?_, ?_, ?_⟩
  · intro hnr
    simp [logout, hnr]
  · intro hnr
    simp [logout, hnr]
  · intro hauth
    by_cases hnr : no_redirect.getD "false" = "true" <;>
      simp [logout, empty_session, hauth, hnr]
  · intro hauth
    by_cases hnr : no_redirect.getD "false" = "true" <;>
      simp [logout, hauth, hnr]

/-- C8 witness: logging out of a concrete authenticated session without the
no_redirect parameter clears the session and redirects to the provider
logout URL with the percent-encoded site root. -/
theorem c8_logout_witness :
    ((Option.none : Option String).getD "false" ≠ "true" ∧
     is_authenticated sessionAuth = true) ∧
    (logout sessionAuth none "https://example.com/").2 =
      HttpResult.redirect
        "https://login.ubuntu.com/+logout?return_to=https%3A%2F%2Fexample.com%2F&return_now=True" ∧
    (logout sessionAuth none "https://example.com/").1 = emptySession :=
  ⟨⟨by decide, rfl⟩,
   (c8_logout_behavior sessionAuth none "https://example.com/").2.1 (by decide),
   (c8_logout_behavior sessionAuth none "https://example.com/").2.2.1 rfl⟩

/-- C9: a 204 response to the username update (with a fresh, non-expired
credential) returns the empty record, for any body whatsoever, so an
unparseable empty body never raises a decode error. -/
theorem c9_post_username_204 (s : Session) (username : String) (r : HttpResponse)
    (hroot : s.macaroon_root.isSome = true)
    (hdis : s.macaroon_discharge.isSome = true)
    (hexp : is_macaroon_expired r.headers = false)
    (h204 : r.status = 204) :
    post_username s username r = Except.ok (Json.obj []) := by
  obtain ⟨mroot, mdis, oid, shr⟩ := s
  cases mroot with
  | none => simp at hroot
  | some rt =>
    cases mdis with
    | none => simp at hdis
    | some dc => simp [post_username, get_authorization_header, hexp, h204]

/-- C9 witness: a concrete 204 response whose body is not valid JSON. -/
theorem c9_post_username_witness :
    (sessionCreds.macaroon_root.isSome = true ∧
     sessionCreds.macaroon_discharge.isSome = true ∧
     is_macaroon_expired resp204.headers = false ∧ resp204.status = 204) ∧
    post_username sessionCreds "newname" resp204 = Except.ok (Json.obj []) :=
  ⟨⟨rfl, rfl, rfl, rfl⟩,
   c9_post_username_204 sessionCreds "newname" resp204 rfl rfl rfl rfl⟩

